import Mathlib

/-!
A shallow embedding, in Lean 4, of the core logic of the
universal-parquet-exporter repository: the `SQLServerConfig` dataclass
(`config/sqlserver_config.py`), the connection-string builder and the
connection lifecycle manager (`src/database/sqlserver_connection.py`),
the query executor (`src/query/query_executor.py`) and the parquet
writer (`src/export/parquet_writer.py`).  Pure Python functions become
Lean functions; the filesystem, the process environment and the ODBC
driver are passed as explicit state or oracles.  Python `str` values
are modelled by Lean `String`, with ASCII-faithful models of
`str.lower`, `str.strip`, `int()` and `"sep".join` defined over the
underlying character lists so that every definition evaluates by
`decide`.
-/

deriving instance DecidableEq for Except

/-! ### Python string primitives -/

/-- ASCII model of `str.lower` on a single character. -/
def charLower (c : Char) : Char :=
  if 65 ≤ c.toNat ∧ c.toNat ≤ 90 then Char.ofNat (c.toNat + 32) else c

/-- ASCII model of Python `str.lower`. -/
def pyLower (s : String) : String := String.mk (s.data.map charLower)

/-- Whitespace characters stripped by Python `str.strip` (ASCII range). -/
def isSpaceChar (c : Char) : Bool :=
  c = ' ' || c = '\t' || c = '\n' || c = '\r' || c = '\x0b' || c = '\x0c'

/-- Model of Python `str.strip` (no arguments): drop whitespace at both ends. -/
def pyStrip (s : String) : String :=
  String.mk (((s.data.dropWhile isSpaceChar).reverse.dropWhile isSpaceChar).reverse)

/-- Decimal digit value of a character, if it is a digit. -/
def charDigit (c : Char) : Option Nat :=
  if 48 ≤ c.toNat ∧ c.toNat ≤ 57 then some (c.toNat - 48) else none

/-- Value of a non-empty all-digit character list, `none` otherwise. -/
def digitsVal (l : List Char) : Option Nat :=
  match l with
  | [] => none
  | _ :: _ => l.foldl (fun acc c =>
      match acc, charDigit c with
      | some n, some d => some (10 * n + d)
      | _, _ => none) (some 0)

/-- Model of Python `int(s)` for plain decimal literals: optional sign,
whitespace stripped, all remaining characters digits. -/
def pyInt (s : String) : Option Int :=
  match (pyStrip s).data with
  | '-' :: ds => (digitsVal ds).map (fun n => -(n : Int))
  | '+' :: ds => (digitsVal ds).map (fun n => (n : Int))
  | ds => (digitsVal ds).map (fun n => (n : Int))

/-- Model of Python `sep.join(l)`. -/
def joinWith (sep : String) : List String → String
  | [] => ""
  | [x] => x
  | x :: y :: ys => x ++ sep ++ joinWith sep (y :: ys)

/-- Model of Python `pat in s` (substring containment), over character lists. -/
def strContains (s pat : String) : Bool := decide (pat.data <:+: s.data)

/-- Boolean prefix test over character lists (model of `s.startswith(t)`). -/
def strStartsWith (s t : String) : Bool := decide (t.data <+: s.data)

/-- `t` occurs as a contiguous substring of `s`. -/
def strHasSub (s t : String) : Prop := t.data <:+: s.data

/-! ### SQLServerConfig (`config/sqlserver_config.py`) -/

/-- The `SQLServerConfig` dataclass: fields and defaults as in the source. -/
structure SQLServerConfig where
  host : String
  database : String
  user : String
  password : String
  port : Int := 1433
  driver : String := "ODBC Driver 18 for SQL Server"
  encrypt : String := "no"
  trust_server_certificate : String := "yes"
  mars : String := "no"
  extra : Option (List (String × String)) := none
deriving DecidableEq

/-- `__post_init__` validation: the first error raised, or `none` when
construction succeeds.  Conditions and messages follow the source line by
line (`not self.host` on a `str` is emptiness; flags compared
case-sensitively against the literal lists). -/
def postInitError (c : SQLServerConfig) : Option String :=
  if c.host = "" then some "Host cannot be empty"
  else if c.database = "" then some "Database cannot be empty"
  else if c.user = "" then some "User cannot be empty"
  else if c.password = "" then some "Password cannot be empty"
  else if c.port ≤ 0 ∨ 65535 < c.port then some ("Invalid port number: " ++ toString c.port)
  else if ¬ (c.encrypt = "yes" ∨ c.encrypt = "no") then
    some "Encrypt must be \x27yes\x27 or \x27no\x27"
  else if ¬ (c.trust_server_certificate = "yes" ∨ c.trust_server_certificate = "no") then
    some "TrustServerCertificate must be \x27yes\x27 or \x27no\x27"
  else if ¬ (c.mars = "yes" ∨ c.mars = "no") then
    some "MARS_Connection must be \x27yes\x27 or \x27no\x27"
  else none

/-- Model of `SQLServerConfig(...)` construction: runs `__post_init__` and
either raises (`.error`) or yields the constructed value. -/
def mkConfig (host database user password : String) (port : Int)
    (driver encrypt trust mars : String)
    (extra : Option (List (String × String))) : Except String SQLServerConfig :=
  let c : SQLServerConfig :=
    ⟨host, database, user, password, port, driver, encrypt, trust, mars, extra⟩
  match postInitError c with
  | some msg => .error msg
  | none => .ok c

/-- The non-throwing `validate()` method: collects issue messages in source
order (whitespace-trimmed emptiness checks, port range, case-insensitive
flag checks). -/
def SQLServerConfig.validate (c : SQLServerConfig) : List String :=
  (if pyStrip c.host = "" then ["Host cannot be empty"] else [])
  ++ (if pyStrip c.database = "" then ["Database name cannot be empty"] else [])
  ++ (if pyStrip c.user = "" then ["Username cannot be empty"] else [])
  ++ (if pyStrip c.password = "" then ["Password cannot be empty"] else [])
  ++ (if c.port ≤ 0 ∨ 65535 < c.port then ["Invalid port number: " ++ toString c.port] else [])
  ++ (if ¬ (pyLower c.encrypt = "yes" ∨ pyLower c.encrypt = "no") then
        ["Encrypt must be \x27yes\x27 or \x27no\x27"] else [])
  ++ (if ¬ (pyLower c.trust_server_certificate = "yes" ∨ pyLower c.trust_server_certificate = "no") then
        ["TrustServerCertificate must be \x27yes\x27 or \x27no\x27"] else [])
  ++ (if ¬ (pyLower c.mars = "yes" ∨ pyLower c.mars = "no") then
        ["MARS_Connection must be \x27yes\x27 or \x27no\x27"] else [])

/-! ### from_environment -/

/-- A process environment: an association list from variable names to values
(`os.getenv` returns `none` for unset variables). -/
abbrev Env := List (String × String)

/-- Model of `os.getenv(name)`. -/
def getenv (env : Env) (n : String) : Option String := List.lookup n env

/-- Python truthiness of an `os.getenv` result: `None` and `""` are falsy. -/
def envTruthy (o : Option String) : Bool :=
  match o with
  | none => false
  | some s => s ≠ ""

/-- The required environment variables, in the order the source checks them. -/
def requiredEnvVars : List String :=
  ["SQLSERVER_HOST", "SQLSERVER_DATABASE", "SQLSERVER_USER", "SQLSERVER_PASSWORD"]

/-- The `missing_vars` list accumulated by `from_environment`. -/
def missing_vars (env : Env) : List String :=
  (if envTruthy (getenv env "SQLSERVER_HOST") then [] else ["SQLSERVER_HOST"])
  ++ (if envTruthy (getenv env "SQLSERVER_DATABASE") then [] else ["SQLSERVER_DATABASE"])
  ++ (if envTruthy (getenv env "SQLSERVER_USER") then [] else ["SQLSERVER_USER"])
  ++ (if envTruthy (getenv env "SQLSERVER_PASSWORD") then [] else ["SQLSERVER_PASSWORD"])

/-- Model of `SQLServerConfig.from_environment`: raise one combined error
naming the missing required variables, otherwise build the config from the
environment with the documented defaults (the `int()` call on the port
string may itself raise). -/
def from_environment (env : Env) : Except String SQLServerConfig :=
  if missing_vars env ≠ [] then
    .error ("Missing required environment variables: " ++ joinWith ", " (missing_vars env))
  else
    match pyInt ((getenv env "SQLSERVER_PORT").getD "1433") with
    | none => .error "invalid literal for int() with base 10"
    | some port =>
        mkConfig ((getenv env "SQLSERVER_HOST").getD "")
          ((getenv env "SQLSERVER_DATABASE").getD "")
          ((getenv env "SQLSERVER_USER").getD "")
          ((getenv env "SQLSERVER_PASSWORD").getD "")
          port
          ((getenv env "SQLSERVER_DRIVER").getD "ODBC Driver 18 for SQL Server")
          ((getenv env "SQLSERVER_ENCRYPT").getD "no")
          ((getenv env "SQLSERVER_TRUST_CERT").getD "yes")
          "no" none

/-! ### Connection-string builder (`src/database/sqlserver_connection.py`) -/

/-- The preferred driver order hard-coded in `_detect_odbc_drivers`. -/
def preferred_drivers : List String :=
  ["ODBC Driver 18 for SQL Server", "ODBC Driver 17 for SQL Server",
   "SQL Server Native Client 11.0", "SQL Server"]

/-- Model of `_detect_odbc_drivers`, parametrised by the installed driver
list that `pyodbc.drivers()` would report: preferred drivers that are
installed, in preference order, then any other installed driver whose name
contains "SQL Server", deduplicated in order. -/
def detect_odbc_drivers (allDrivers : List String) : List String :=
  let sqlDrivers := preferred_drivers.filter (fun p => allDrivers.contains p)
  allDrivers.foldl
    (fun acc d => if strContains d "SQL Server" && !(acc.contains d) then acc ++ [d] else acc)
    sqlDrivers

/-- The driver chosen at the top of `_build_connection_string`: the
configured driver when installed, else the best detected one, else the
configured name unchanged. -/
def chosen_driver (allDrivers : List String) (c : SQLServerConfig) : String :=
  let available := detect_odbc_drivers allDrivers
  if available.contains c.driver then c.driver else available.headD c.driver

/-- The base `parts`: driver (brace-delimited), server host only, database,
user, password. -/
def base_parts (allDrivers : List String) (c : SQLServerConfig) : List String :=
  ["DRIVER=\x7b" ++ (chosen_driver allDrivers c ++ "\x7d"),
   "SERVER=" ++ c.host,
   "DATABASE=" ++ c.database,
   "UID=" ++ c.user,
   "PWD=" ++ c.password]

/-- The encryption block: `Encrypt=no` forces `TrustServerCertificate=yes`;
otherwise the configured values are emitted verbatim. -/
def encryption_parts (c : SQLServerConfig) : List String :=
  if pyLower c.encrypt = "no" then ["Encrypt=no", "TrustServerCertificate=yes"]
  else ["Encrypt=" ++ c.encrypt, "TrustServerCertificate=" ++ c.trust_server_certificate]

/-- The MARS clause, present only when the flag is "yes" case-insensitively. -/
def mars_parts (c : SQLServerConfig) : List String :=
  if pyLower c.mars = "yes" then ["MARS_Connection=" ++ c.mars] else []

/-- The fixed timeout clauses. -/
def timeout_parts : List String := ["Connection Timeout=30", "Login Timeout=30"]

/-- The port clause, present only for a non-default port. -/
def port_parts (c : SQLServerConfig) : List String :=
  if c.port ≠ 1433 then ["Port=" ++ toString c.port] else []

/-- The extra key/value clauses, in the order configured. -/
def extra_parts (c : SQLServerConfig) : List String :=
  match c.extra with
  | none => []
  | some kvs => kvs.map (fun kv => kv.1 ++ "=" ++ kv.2)

/-- The `parts` list assembled by `_build_connection_string`, in source
order: driver (brace-delimited), server, database, credentials, the
encryption block, optional MARS, fixed timeouts, optional non-default port,
then every extra key/value pair. -/
def build_connection_parts (allDrivers : List String) (c : SQLServerConfig) : List String :=
  base_parts allDrivers c ++ encryption_parts c ++ mars_parts c
    ++ timeout_parts ++ port_parts c ++ extra_parts c

/-- Model of `_build_connection_string`: the parts joined with `;`. -/
def build_connection_string (allDrivers : List String) (c : SQLServerConfig) : String :=
  joinWith ";" (build_connection_parts allDrivers c)

/-- Number of `;`-separated clauses opening with a given `KEY=` token.
When no field value contains `;` these are exactly the clauses of the
joined connection string that carry that key. -/
def clause_count (parts : List String) (tok : String) : Nat :=
  List.countP (fun p => strStartsWith p tok) parts

/-! ### Connection lifecycle manager -/

/-- The mutable attributes of a `SQLServerConnection` instance:
`_connection` (handle modelled as a numeric id) and `_openssl_patch_file`. -/
structure ManagerState where
  connection : Option Nat
  opensslPatchFile : Option String
deriving DecidableEq

/-- The process-external state the manager touches: the set of existing
files (as a path list) and the `OPENSSL_CONF` environment variable. -/
structure World where
  fs : List String
  opensslConf : Option String
deriving DecidableEq

/-- Model of `_is_macos_openssl_issue`: platform is darwin and the lowered
error text matches the TCP-provider 10054/0x2746 signature. -/
def is_macos_openssl_issue (darwin : Bool) (err : String) : Bool :=
  let e := pyLower err
  darwin && strContains e "tcp provider" && (strContains e "10054" || strContains e "0x2746")

/-- Model of `_build_error_message`: the original driver message plus the
remediation block selected by pattern-matching the lowered error text. -/
def build_error_message (darwin : Bool) (host : String) (err : String) : String :=
  let errorMsg := pyLower err
  let suggestions : List String :=
    if strContains errorMsg "tcp provider" && (strContains errorMsg "10054" || strContains errorMsg "10061") then
      ["Check if SQL Server is running and accepting TCP connections",
       "Verify firewall allows port 1433 (or your custom port)",
       "Try: nc -zv " ++ host ++ " 1433 to test network connectivity",
       "Consider setting encrypt=no and trust_server_certificate=yes for local connections"]
      ++ (if darwin then ["On macOS: This may be an OpenSSL 3.0 TLS compatibility issue"] else [])
    else if strContains errorMsg "login failed" then
      ["Verify username and password are correct",
       "Check if SQL Server authentication is enabled (not just Windows auth)",
       "Ensure user has permission to access the database"]
    else if strContains errorMsg "cannot open database" then
      ["Verify database name is correct",
       "Check if user has access to the specified database",
       "Try connecting without specifying database first"]
    else if strContains errorMsg "ssl" || strContains errorMsg "certificate" then
      ["Try setting encrypt=no for local connections",
       "Set trust_server_certificate=yes for self-signed certificates",
       "Check SSL/TLS configuration on SQL Server"]
    else []
  let suggestionText :=
    if suggestions.isEmpty then "" else joinWith "\n" (suggestions.map (fun s => "  - " ++ s))
  let errorDetails := "Failed to connect to SQL Server: " ++ err
  if suggestionText ≠ "" then
    errorDetails ++ ("\n\nTroubleshooting suggestions:\n" ++ suggestionText)
  else errorDetails

/-- The process-ID-qualified temp path used by `_apply_openssl_legacy_patch`. -/
def patch_path (tempDir : String) (pid : Nat) : String :=
  tempDir ++ ("/openssl_legacy_mysql_parquet_" ++ (toString pid ++ ".cnf"))

/-- Creating (or truncating) a file: the path becomes present exactly once. -/
def fsInsert (fs : List String) (p : String) : List String :=
  if p ∈ fs then fs else p :: fs

/-- Model of `_apply_openssl_legacy_patch`: write the temp policy file and
point `OPENSSL_CONF` at it; returns the path for tracking. -/
def apply_openssl_legacy_patch (tempDir : String) (pid : Nat) (w : World) : String × World :=
  let p := patch_path tempDir pid
  (p, { fs := fsInsert w.fs p, opensslConf := some p })

/-- Model of `_cleanup_openssl_patch`.  When a patch file is tracked and
exists, it is removed (`os.remove` modelled as succeeding), the
`OPENSSL_CONF` variable is deleted if it still points at that file, and the
tracking attribute is cleared; otherwise nothing changes (the `finally`
that clears the attribute sits inside the existence guard in the source). -/
def cleanup_openssl_patch (st : ManagerState) (w : World) : ManagerState × World :=
  match st.opensslPatchFile with
  | none => (st, w)
  | some p =>
    if p ∈ w.fs then
      ({ st with opensslPatchFile := none },
       { fs := w.fs.erase p,
         opensslConf := if w.opensslConf = some p then none else w.opensslConf })
    else (st, w)

/-- Everything `connect()` produces: the returned value (`.ok none` models
Python falling off the end of the function and returning `None`), the
updated instance attributes, the updated external state, and how many
`pyodbc.connect` attempts were made. -/
structure ConnectOutcome where
  result : Except String (Option Nat)
  state : ManagerState
  world : World
  attempts : Nat
deriving DecidableEq

/-- Model of `connect()`.  `oracle s n` is the outcome of the `(n+1)`-th
`pyodbc.connect(s)` call (`.error` carries the driver message).  `autoPatch`
models `getattr(config, auto_apply_openssl_patch, True)`, which is always
`True` for the dataclass in the repository since the field does not exist.
The branch structure follows the source: the whole body is guarded by
`self._connection is None`, so a manager that is already open runs nothing
and the function returns `None`. -/
def connect (darwin autoPatch : Bool) (tempDir : String) (pid : Nat)
    (allDrivers : List String) (cfg : SQLServerConfig)
    (oracle : String → Nat → Except String Nat)
    (st : ManagerState) (w : World) : ConnectOutcome :=
  match st.connection with
  | some _ => ⟨.ok none, st, w, 0⟩
  | none =>
    let connStr := build_connection_string allDrivers cfg
    if w.opensslConf.isSome then
      match oracle connStr 0 with
      | .ok h => ⟨.ok (some h), { st with connection := some h }, w, 1⟩
      | .error e => ⟨.error (build_error_message darwin cfg.host e), st, w, 1⟩
    else
      match oracle connStr 0 with
      | .ok h => ⟨.ok (some h), { st with connection := some h }, w, 1⟩
      | .error e =>
        if autoPatch && is_macos_openssl_issue darwin e then
          let pw := apply_openssl_legacy_patch tempDir pid w
          let st1 := { st with opensslPatchFile := some pw.1 }
          match oracle connStr 1 with
          | .ok h => ⟨.ok (some h), { st1 with connection := some h }, pw.2, 2⟩
          | .error e2 =>
            let cl := cleanup_openssl_patch st1 pw.2
            ⟨.error ("Connection failed even with OpenSSL patch: " ++ e2
               ++ "\n\nOriginal error: " ++ e
               ++ "\n\nThis suggests the issue may not be OpenSSL TLS compatibility."
               ++ "\nPlease check SQL Server configuration and network connectivity."),
             cl.1, cl.2, 2⟩
        else ⟨.error (build_error_message darwin cfg.host e), st, w, 1⟩

/-- Model of `close()`.  `closeRaises` says whether the underlying
`self._connection.close()` call raised a `pyodbc.Error`; that error is
swallowed (only logged), the handle reference is always cleared in the
`finally`, and `_cleanup_openssl_patch` always runs afterwards, so the
outcome does not depend on `closeRaises`. -/
def close (st : ManagerState) (w : World) (closeRaises : Bool) : ManagerState × World :=
  let st1 :=
    match st.connection with
    | none => st
    | some _ =>
      let _ := closeRaises
      { st with connection := none }
  cleanup_openssl_patch st1 w

/-! ### Query executor (`src/query/query_executor.py`) -/

/-- Scalar cell values of a result row. -/
inductive SqlValue
  | null
  | intV (i : Int)
  | strV (s : String)
deriving DecidableEq

/-- Observable operations performed on the cursor of one execution. -/
inductive CursorEvent
  | execute
  | fetchall
  | close
deriving DecidableEq

/-- One cursor's behaviour for one query: whether `execute` raises, the
column names from `cursor.description`, and what `fetchall` returns or
raises. -/
structure CursorBehavior where
  executeOutcome : Except String Unit
  columns : List String
  fetchOutcome : Except String (List (List SqlValue))

/-- Python `dict` assignment: overwrite the first binding of the key in
place, else append. -/
def dictSet (d : List (String × SqlValue)) (k : String) (v : SqlValue) :
    List (String × SqlValue) :=
  if d.any (fun p => p.1 = k) then d.map (fun p => if p.1 = k then (k, v) else p)
  else d ++ [(k, v)]

/-- Python `dict(pairs)`: later bindings of a repeated key overwrite
earlier ones, insertion order of first appearance is kept. -/
def pyDict (l : List (String × SqlValue))  : List (String × SqlValue) :=
  l.foldl (fun d kv => dictSet d kv.1 kv.2) []

/-- Model of `QueryExecutor.execute_query`: open a cursor, `execute` inside
a `try` whose `finally` closes the cursor, read `cursor.description`, fetch
every row eagerly, and zip column names with each row tuple into a dict.
The second component is the ordered trace of cursor operations. -/
def execute_query (b : CursorBehavior) :
    Except String (List (List (String × SqlValue))) × List CursorEvent :=
  match b.executeOutcome with
  | .error e => (.error e, [CursorEvent.execute, CursorEvent.close])
  | .ok _ =>
    match b.fetchOutcome with
    | .error e => (.error e, [CursorEvent.execute, CursorEvent.fetchall, CursorEvent.close])
    | .ok rows =>
      let result := rows.map (fun row => pyDict (b.columns.zip row))
      (.ok result, [CursorEvent.execute, CursorEvent.fetchall, CursorEvent.close])

/-! ### Parquet writer (`src/export/parquet_writer.py`) -/

/-- Columns of `pd.DataFrame(data)` for a list of dicts: the union of the
keys in order of first appearance. -/
def df_columns (data : List (List (String × SqlValue))) : List String :=
  data.foldl
    (fun cols row =>
      row.foldl (fun cs kv => if cs.contains kv.1 then cs else cs ++ [kv.1]) cols)
    []

/-- One file produced by `DataFrame.to_parquet`. -/
structure WrittenFile where
  path : String
  columns : List String
  rows : Nat
deriving DecidableEq

/-- Model of `ParquetWriter.write_to_parquet`: raise `ValueError` on an
empty record list before anything is written, otherwise build the
DataFrame and write exactly one file at the destination.  The second
component lists the filesystem writes performed. -/
def write_to_parquet (data : List (List (String × SqlValue))) (filePath : String) :
    Except String Unit × List WrittenFile :=
  if data.isEmpty then (.error "Data cannot be empty.", [])
  else (.ok (), [⟨filePath, df_columns data, data.length⟩])

/-! ### Generic helper lemmas -/

/-- Every element of a joined list occurs as a substring of the join. -/
theorem data_infix_joinWith (sep : String) :
    ∀ (l : List String) (x : String), x ∈ l → x.data <:+: (joinWith sep l).data := by
  intro l
  induction l with
  | nil => intro x hx; cases hx
  | cons a t ih =>
    intro x hx
    rcases List.mem_cons.mp hx with rfl | hx'
    · cases t with
      | nil => exact List.infix_rfl
      | cons b ts =>
        show x.data <:+: (x ++ sep ++ joinWith sep (b :: ts)).data
        rw [String.data_append, String.data_append]
        exact (( List.prefix_append x.data sep.data).trans
          ( List.prefix_append (x.data ++ sep.data) (joinWith sep (b :: ts)).data)).isInfix
    · cases t with
      | nil => cases hx'
      | cons b ts =>
        show x.data <:+: (a ++ sep ++ joinWith sep (b :: ts)).data
        rw [String.data_append, String.data_append]
        exact (ih x hx').trans
          ( List.suffix_append (a.data ++ sep.data) (joinWith sep (b :: ts)).data).isInfix

/-- A string starting with prefix `t` keeps starting with it after any
append on the right. -/
theorem sw_append_true (K t : String) (h : t.data <+: K.data) :
    ∀ v : String, strStartsWith (K ++ v) t = true := by
  intro v
  unfold strStartsWith
  apply decide_eq_true
  rw [String.data_append]
  exact h.trans ( List.prefix_append K.data v.data)

/-- When `t` neither is a prefix of `K` nor extends `K`, no right-append
to `K` can start with `t`. -/
theorem sw_append_false (K t : String) (h1 : ¬ t.data <+: K.data) (h2 : ¬ K.data <+: t.data) :
    ∀ v : String, strStartsWith (K ++ v) t = false := by
  intro v
  unfold strStartsWith
  apply decide_eq_false
  intro hp
  rw [String.data_append] at hp
  rcases List.prefix_or_prefix_of_prefix hp ( List.prefix_append K.data v.data) with h | h
  · exact h1 h
  · exact h2 h

/-! ### C4 -/

/-- The rejection condition exactly as the claim words it (for comparison
with the source-level `postInitError`). -/
def specRejectsConstruction (host database user password : String) (port : Int)
    (encrypt trust mars : String) : Prop :=
  host = "" ∨ database = "" ∨ user = "" ∨ password = "" ∨
    ¬ (1 ≤ port ∧ port ≤ 65535) ∨
    ¬ (encrypt = "yes" ∨ encrypt = "no") ∨
    ¬ (trust = "yes" ∨ trust = "no") ∨
    ¬ (mars = "yes" ∨ mars = "no")

/-- `__post_init__` succeeds exactly when no rejection condition holds. -/
theorem postInitError_none_iff (c : SQLServerConfig) :
    postInitError c = none ↔
      ¬ specRejectsConstruction c.host c.database c.user c.password c.port
          c.encrypt c.trust_server_certificate c.mars := by
  unfold postInitError specRejectsConstruction
  split_ifs with h1 h2 h3 h4 h5 h6 h7 h8 <;> simp_all <;> omega

/-- C4: construction fails with a `ValueError` iff host, database, user or
password is empty, the port is outside 1–65535, or one of the three flags
is not exactly "yes" or "no"; otherwise it succeeds with the given field
values. -/
theorem construction_fails_iff_invalid (host database user password : String) (port : Int)
    (driver encrypt trust mars : String) (extra : Option (List (String × String))) :
    ((∃ msg, mkConfig host database user password port driver encrypt trust mars extra
        = .error msg) ↔
      specRejectsConstruction host database user password port encrypt trust mars) ∧
    (¬ specRejectsConstruction host database user password port encrypt trust mars →
      mkConfig host database user password port driver encrypt trust mars extra
        = .ok ⟨host, database, user, password, port, driver, encrypt, trust, mars, extra⟩) := by
  have hiff : postInitError
        ⟨host, database, user, password, port, driver, encrypt, trust, mars, extra⟩ = none ↔
      ¬ specRejectsConstruction host database user password port encrypt trust mars :=
    postInitError_none_iff
      ⟨host, database, user, password, port, driver, encrypt, trust, mars, extra⟩
  have hmk : mkConfig host database user password port driver encrypt trust mars extra
      = match postInitError
          ⟨host, database, user, password, port, driver, encrypt, trust, mars, extra⟩ with
        | some msg => Except.error msg
        | none => Except.ok
            ⟨host, database, user, password, port, driver, encrypt, trust, mars, extra⟩ := rfl
  constructor
  · rw [hmk]
    cases hpi : postInitError
        ⟨host, database, user, password, port, driver, encrypt, trust, mars, extra⟩ with
    | none =>
      constructor
      · rintro ⟨msg, hmsg⟩
        exact Except.noConfusion hmsg
      · intro h; exact absurd h (hiff.mp hpi)
    | some msg =>
      constructor
      · intro _
        by_contra hn
        rw [hiff.mpr hn] at hpi
        exact Option.noConfusion hpi
      · intro _; exact ⟨msg, rfl⟩
  · intro hn
    rw [hmk, hiff.mpr hn]

/-- C4 witness: an empty host is rejected, a fully valid tuple is accepted. -/
theorem construction_fails_iff_invalid_witness :
    (∃ msg, mkConfig "" "d" "u" "p" 1433 "drv" "no" "yes" "no" none = .error msg) ∧
    mkConfig "h" "d" "u" "p" 1433 "drv" "no" "yes" "no" none
      = .ok ⟨"h", "d", "u", "p", 1433, "drv", "no", "yes", "no", none⟩ := by
  constructor
  · exact (construction_fails_iff_invalid "" "d" "u" "p" 1433 "drv" "no" "yes" "no" none).1.mpr
      (Or.inl rfl)
  · exact (construction_fails_iff_invalid "h" "d" "u" "p" 1433 "drv" "no" "yes" "no" none).2
      (by unfold specRejectsConstruction; decide)

/-! ### C9 -/

/-- C9: `validate()` (a total function here, so it never raises) returns a
non-empty problem list exactly when a required field is empty after
whitespace trimming, the port is outside 1–65535, or a flag fails the
case-insensitive "yes"/"no" comparison. -/
theorem validate_nonempty_iff_problem (c : SQLServerConfig) :
    c.validate ≠ [] ↔
      (pyStrip c.host = "" ∨ pyStrip c.database = "" ∨ pyStrip c.user = "" ∨
        pyStrip c.password = "" ∨
        ¬ (1 ≤ c.port ∧ c.port ≤ 65535) ∨
        ¬ (pyLower c.encrypt = "yes" ∨ pyLower c.encrypt = "no") ∨
        ¬ (pyLower c.trust_server_certificate = "yes" ∨
            pyLower c.trust_server_certificate = "no") ∨
        ¬ (pyLower c.mars = "yes" ∨ pyLower c.mars = "no")) := by
  have hsingle : ∀ (p : Prop) [Decidable p] (x : String),
      ((if p then [x] else []) = []) ↔ ¬ p := by
    intro p hp x
    split <;> simp [*]
  have hnil : c.validate = [] ↔
      ¬ (pyStrip c.host = "" ∨ pyStrip c.database = "" ∨ pyStrip c.user = "" ∨
        pyStrip c.password = "" ∨
        ¬ (1 ≤ c.port ∧ c.port ≤ 65535) ∨
        ¬ (pyLower c.encrypt = "yes" ∨ pyLower c.encrypt = "no") ∨
        ¬ (pyLower c.trust_server_certificate = "yes" ∨
            pyLower c.trust_server_certificate = "no") ∨
        ¬ (pyLower c.mars = "yes" ∨ pyLower c.mars = "no")) := by
    unfold SQLServerConfig.validate
    simp only [List.append_eq_nil, hsingle, not_or, not_not]
    have hport : ¬ (c.port ≤ 0 ∨ 65535 < c.port) ↔ (1 ≤ c.port ∧ c.port ≤ 65535) := by omega
    tauto
  rw [ne_eq, hnil, not_not]

/-! ### C10 -/

/-- A config whose host is whitespace-only: construction accepts it,
`validate()` rejects it. -/
def whitespaceHostConfig : SQLServerConfig :=
  { host := " ", database := "db", user := "u", password := "p" }

/-- A config whose encrypt flag is "YES": construction rejects it,
`validate()` accepts it. -/
def upperFlagConfig : SQLServerConfig :=
  { host := "h", database := "db", user := "u", password := "p", encrypt := "YES" }

/-- C10: construction-time validation and `validate()` are incomparable.
A whitespace-only host passes `__post_init__` but fails `validate()`;
an upper-case "YES" flag fails `__post_init__` but passes `validate()`. -/
theorem construction_validate_incomparable :
    (mkConfig " " "db" "u" "p" 1433 "ODBC Driver 18 for SQL Server" "no" "yes" "no" none
        = .ok whitespaceHostConfig ∧
      whitespaceHostConfig.validate ≠ []) ∧
    (mkConfig "h" "db" "u" "p" 1433 "ODBC Driver 18 for SQL Server" "YES" "yes" "no" none
        = .error "Encrypt must be \x27yes\x27 or \x27no\x27" ∧
      upperFlagConfig.validate = []) := by
  decide

/-! ### C7 -/

/-- C7: whatever the cursor does — `execute` raising, `fetchall` raising,
or full success — the cursor is closed exactly once, and on error paths
the close is in the trace before the error is returned. -/
theorem cursor_closed_exactly_once (b : CursorBehavior) :
    ((execute_query b).2.count CursorEvent.close) = 1 := by
  unfold execute_query
  rcases b with ⟨eo, cols, fo⟩
  cases eo with
  | error e => simp [List.count_cons]
  | ok u =>
    cases fo with
    | error e => simp [List.count_cons]
    | ok rows => simp [List.count_cons]

/-! ### C8 -/

/-- C8: exporting an empty record sequence raises `ValueError` and performs
no filesystem write; a non-empty sequence is written as exactly one file at
the destination. -/
theorem export_empty_raises_before_write
    (data : List (List (String × SqlValue))) (filePath : String) :
    (data = [] → write_to_parquet data filePath = (.error "Data cannot be empty.", [])) ∧
    (data ≠ [] → write_to_parquet data filePath
      = (.ok (), [⟨filePath, df_columns data, data.length⟩])) := by
  constructor
  · intro h; simp [write_to_parquet, h]
  · intro h
    have : data.isEmpty = false := by
      cases data with
      | nil => exact absurd rfl h
      | cons a t => rfl
    simp [write_to_parquet, this]

/-- C8 witness: the empty export errors with no write; a one-record export
writes one file with the record's column and one row. -/
theorem export_empty_raises_before_write_witness :
    write_to_parquet [] "out.parquet" = (.error "Data cannot be empty.", []) ∧
    write_to_parquet [[("id", SqlValue.intV 1)]] "out.parquet"
      = (.ok (), [⟨"out.parquet", ["id"], 1⟩]) := by
  constructor
  · exact (export_empty_raises_before_write [] "out.parquet").1 rfl
  · have h := (export_empty_raises_before_write [[("id", SqlValue.intV 1)]] "out.parquet").2
      (by decide)
    rw [h]
    decide

/-! ### C2 -/

/-- C2: with the encrypt flag "no" case-insensitively, the built string
contains `Encrypt=no` and `TrustServerCertificate=yes` whatever the trust
flag; otherwise it contains the configured encrypt and trust values
verbatim. -/
theorem build_string_encryption_block (allDrivers : List String) (c : SQLServerConfig) :
    (pyLower c.encrypt = "no" →
      strHasSub (build_connection_string allDrivers c) "Encrypt=no" ∧
      strHasSub (build_connection_string allDrivers c) "TrustServerCertificate=yes") ∧
    (pyLower c.encrypt ≠ "no" →
      strHasSub (build_connection_string allDrivers c) ("Encrypt=" ++ c.encrypt) ∧
      strHasSub (build_connection_string allDrivers c)
        ("TrustServerCertificate=" ++ c.trust_server_certificate)) := by
  have hmem : ∀ x ∈ build_connection_parts allDrivers c,
      strHasSub (build_connection_string allDrivers c) x := by
    intro x hx
    exact data_infix_joinWith ";" _ x hx
  constructor
  · intro henc
    exact ⟨hmem _ (by simp [build_connection_parts, encryption_parts, henc]),
      hmem _ (by simp [build_connection_parts, encryption_parts, henc])⟩
  · intro henc
    exact ⟨hmem _ (by simp [build_connection_parts, encryption_parts, henc]),
      hmem _ (by simp [build_connection_parts, encryption_parts, henc])⟩

/-- C2 witness: both branches at concrete configurations (default
`encrypt="no"`, and `encrypt="yes"` with `trust_server_certificate="no"`). -/
theorem build_string_encryption_block_witness :
    (strHasSub (build_connection_string []
        { host := "h", database := "d", user := "u", password := "p" }) "Encrypt=no" ∧
      strHasSub (build_connection_string []
        { host := "h", database := "d", user := "u", password := "p" })
        "TrustServerCertificate=yes") ∧
    (strHasSub (build_connection_string []
        { host := "h", database := "d", user := "u", password := "p",
          encrypt := "yes", trust_server_certificate := "no" }) "Encrypt=yes" ∧
      strHasSub (build_connection_string []
        { host := "h", database := "d", user := "u", password := "p",
          encrypt := "yes", trust_server_certificate := "no" })
        "TrustServerCertificate=no") := by
  constructor
  · exact (build_string_encryption_block []
      { host := "h", database := "d", user := "u", password := "p" }).1 (by decide)
  · exact (build_string_encryption_block []
      { host := "h", database := "d", user := "u", password := "p",
        encrypt := "yes", trust_server_certificate := "no" }).2 (by decide)

/-! ### C6 -/

/-- A valid configuration (extras are never validated) whose extras inject
a `Port=` clause at the default port. -/
def extraPortConfig : SQLServerConfig :=
  { host := "h", database := "d", user := "u", password := "p",
    extra := some [("Port", "9")] }

/-- C6 counterexample: `extraPortConfig` passes construction validation and
keeps the default port 1433, yet its parts list carries a `Port=` clause —
so "`Port=` appears iff the port is not 1433" fails for valid
configurations with arbitrary extras. -/
theorem clause_count_port_counterexample :
    postInitError extraPortConfig = none ∧
    extraPortConfig.port = 1433 ∧
    clause_count (build_connection_parts [] extraPortConfig) "Port=" = 1 := by
  decide

/-- Encryption block never carries a reserved base/port key. -/
theorem countP_encryption_eq_zero (c : SQLServerConfig) (tok : String)
    (h1 : strStartsWith "Encrypt=no" tok = false)
    (h2 : strStartsWith "TrustServerCertificate=yes" tok = false)
    (h3 : ∀ v, strStartsWith ("Encrypt=" ++ v) tok = false)
    (h4 : ∀ v, strStartsWith ("TrustServerCertificate=" ++ v) tok = false) :
    List.countP (fun p => strStartsWith p tok) (encryption_parts c) = 0 := by
  unfold encryption_parts
  split <;> simp [List.countP_cons, h1, h2, h3, h4]

/-- MARS clause never carries a reserved base/port key. -/
theorem countP_mars_eq_zero (c : SQLServerConfig) (tok : String)
    (h : ∀ v, strStartsWith ("MARS_Connection=" ++ v) tok = false) :
    List.countP (fun p => strStartsWith p tok) (mars_parts c) = 0 := by
  unfold mars_parts
  split <;> simp [List.countP_cons, h]

/-- Timeout clauses never carry a reserved base/port key. -/
theorem countP_timeout_eq_zero (tok : String)
    (h1 : strStartsWith "Connection Timeout=30" tok = false)
    (h2 : strStartsWith "Login Timeout=30" tok = false) :
    List.countP (fun p => strStartsWith p tok) timeout_parts = 0 := by
  simp [timeout_parts, List.countP_cons, h1, h2]

/-- The port clause never carries a non-`Port=` reserved key. -/
theorem countP_port_eq_zero (c : SQLServerConfig) (tok : String)
    (h : ∀ v, strStartsWith ("Port=" ++ v) tok = false) :
    List.countP (fun p => strStartsWith p tok) (port_parts c) = 0 := by
  unfold port_parts
  split <;> simp [List.countP_cons, h]

/-- The port clause counts for `Port=` exactly when the port is
non-default. -/
theorem countP_port_self (c : SQLServerConfig) :
    List.countP (fun p => strStartsWith p "Port=") (port_parts c)
      = if c.port = 1433 then 0 else 1 := by
  unfold port_parts
  by_cases h : c.port = 1433 <;>
    simp [h, List.countP_cons, sw_append_true "Port=" "Port=" (by decide)]

/-- C6 amended: for every valid configuration whose extra `key=value`
texts do not themselves begin with one of the reserved clause keys, the
parts of the built connection string carry exactly one `DRIVER=`,
`SERVER=`, `DATABASE=`, `UID=` and `PWD=` clause, and a `Port=` clause
appears iff the configured port is not 1433. -/
theorem clause_counts_unique (allDrivers : List String) (c : SQLServerConfig)
    (hx : ∀ kv ∈ c.extra.getD [], ∀ tok ∈
      (["DRIVER=", "SERVER=", "DATABASE=", "UID=", "PWD=", "Port="] : List String),
      strStartsWith (kv.1 ++ "=" ++ kv.2) tok = false) :
    clause_count (build_connection_parts allDrivers c) "DRIVER=" = 1 ∧
    clause_count (build_connection_parts allDrivers c) "SERVER=" = 1 ∧
    clause_count (build_connection_parts allDrivers c) "DATABASE=" = 1 ∧
    clause_count (build_connection_parts allDrivers c) "UID=" = 1 ∧
    clause_count (build_connection_parts allDrivers c) "PWD=" = 1 ∧
    clause_count (build_connection_parts allDrivers c) "Port="
      = (if c.port = 1433 then 0 else 1) := by
  have hextra : ∀ tok ∈
      (["DRIVER=", "SERVER=", "DATABASE=", "UID=", "PWD=", "Port="] : List String),
      List.countP (fun p => strStartsWith p tok) (extra_parts c) = 0 := by
    intro tok htok
    unfold extra_parts
    cases hex : c.extra with
    | none => rfl
    | some kvs =>
      rw [List.countP_map]
      apply List.countP_eq_zero.mpr
      intro kv hkv
      have hf := hx kv (by simp [hex, hkv]) tok htok
      simp [Function.comp, hf]
  have hbD : List.countP (fun p => strStartsWith p "DRIVER=") (base_parts allDrivers c) = 1 := by
    simp [base_parts, List.countP_cons,
      sw_append_true "DRIVER=\x7b" "DRIVER=" (by decide),
      sw_append_false "SERVER=" "DRIVER=" (by decide) (by decide),
      sw_append_false "DATABASE=" "DRIVER=" (by decide) (by decide),
      sw_append_false "UID=" "DRIVER=" (by decide) (by decide),
      sw_append_false "PWD=" "DRIVER=" (by decide) (by decide)]
  have hbS : List.countP (fun p => strStartsWith p "SERVER=") (base_parts allDrivers c) = 1 := by
    simp [base_parts, List.countP_cons,
      sw_append_false "DRIVER=\x7b" "SERVER=" (by decide) (by decide),
      sw_append_true "SERVER=" "SERVER=" (by decide),
      sw_append_false "DATABASE=" "SERVER=" (by decide) (by decide),
      sw_append_false "UID=" "SERVER=" (by decide) (by decide),
      sw_append_false "PWD=" "SERVER=" (by decide) (by decide)]
  have hbB : List.countP (fun p => strStartsWith p "DATABASE=") (base_parts allDrivers c) = 1 := by
    simp [base_parts, List.countP_cons,
      sw_append_false "DRIVER=\x7b" "DATABASE=" (by decide) (by decide),
      sw_append_false "SERVER=" "DATABASE=" (by decide) (by decide),
      sw_append_true "DATABASE=" "DATABASE=" (by decide),
      sw_append_false "UID=" "DATABASE=" (by decide) (by decide),
      sw_append_false "PWD=" "DATABASE=" (by decide) (by decide)]
  have hbU : List.countP (fun p => strStartsWith p "UID=") (base_parts allDrivers c) = 1 := by
    simp [base_parts, List.countP_cons,
      sw_append_false "DRIVER=\x7b" "UID=" (by decide) (by decide),
      sw_append_false "SERVER=" "UID=" (by decide) (by decide),
      sw_append_false "DATABASE=" "UID=" (by decide) (by decide),
      sw_append_true "UID=" "UID=" (by decide),
      sw_append_false "PWD=" "UID=" (by decide) (by decide)]
  have hbP : List.countP (fun p => strStartsWith p "PWD=") (base_parts allDrivers c) = 1 := by
    simp [base_parts, List.countP_cons,
      sw_append_false "DRIVER=\x7b" "PWD=" (by decide) (by decide),
      sw_append_false "SERVER=" "PWD=" (by decide) (by decide),
      sw_append_false "DATABASE=" "PWD=" (by decide) (by decide),
      sw_append_false "UID=" "PWD=" (by decide) (by decide),
      sw_append_true "PWD=" "PWD=" (by decide)]
  have hbPort : List.countP (fun p => strStartsWith p "Port=") (base_parts allDrivers c) = 0 := by
    simp [base_parts, List.countP_cons,
      sw_append_false "DRIVER=\x7b" "Port=" (by decide) (by decide),
      sw_append_false "SERVER=" "Port=" (by decide) (by decide),
      sw_append_false "DATABASE=" "Port=" (by decide) (by decide),
      sw_append_false "UID=" "Port=" (by decide) (by decide),
      sw_append_false "PWD=" "Port=" (by decide) (by decide)]
  refine ⟨?_, ?_, ?_, ?_, ?_, ?_⟩
  · simp only [clause_count, build_connection_parts, List.countP_append, hbD,
      countP_encryption_eq_zero c "DRIVER=" (by decide) (by decide)
        (sw_append_false "Encrypt=" "DRIVER=" (by decide) (by decide))
        (sw_append_false "TrustServerCertificate=" "DRIVER=" (by decide) (by decide)),
      countP_mars_eq_zero c "DRIVER="
        (sw_append_false "MARS_Connection=" "DRIVER=" (by decide) (by decide)),
      countP_timeout_eq_zero "DRIVER=" (by decide) (by decide),
      countP_port_eq_zero c "DRIVER="
        (sw_append_false "Port=" "DRIVER=" (by decide) (by decide)),
      hextra "DRIVER=" (by simp)]
  · simp only [clause_count, build_connection_parts, List.countP_append, hbS,
      countP_encryption_eq_zero c "SERVER=" (by decide) (by decide)
        (sw_append_false "Encrypt=" "SERVER=" (by decide) (by decide))
        (sw_append_false "TrustServerCertificate=" "SERVER=" (by decide) (by decide)),
      countP_mars_eq_zero c "SERVER="
        (sw_append_false "MARS_Connection=" "SERVER=" (by decide) (by decide)),
      countP_timeout_eq_zero "SERVER=" (by decide) (by decide),
      countP_port_eq_zero c "SERVER="
        (sw_append_false "Port=" "SERVER=" (by decide) (by decide)),
      hextra "SERVER=" (by simp)]
  · simp only [clause_count, build_connection_parts, List.countP_append, hbB,
      countP_encryption_eq_zero c "DATABASE=" (by decide) (by decide)
        (sw_append_false "Encrypt=" "DATABASE=" (by decide) (by decide))
        (sw_append_false "TrustServerCertificate=" "DATABASE=" (by decide) (by decide)),
      countP_mars_eq_zero c "DATABASE="
        (sw_append_false "MARS_Connection=" "DATABASE=" (by decide) (by decide)),
      countP_timeout_eq_zero "DATABASE=" (by decide) (by decide),
      countP_port_eq_zero c "DATABASE="
        (sw_append_false "Port=" "DATABASE=" (by decide) (by decide)),
      hextra "DATABASE=" (by simp)]
  · simp only [clause_count, build_connection_parts, List.countP_append, hbU,
      countP_encryption_eq_zero c "UID=" (by decide) (by decide)
        (sw_append_false "Encrypt=" "UID=" (by decide) (by decide))
        (sw_append_false "TrustServerCertificate=" "UID=" (by decide) (by decide)),
      countP_mars_eq_zero c "UID="
        (sw_append_false "MARS_Connection=" "UID=" (by decide) (by decide)),
      countP_timeout_eq_zero "UID=" (by decide) (by decide),
      countP_port_eq_zero c "UID="
        (sw_append_false "Port=" "UID=" (by decide) (by decide)),
      hextra "UID=" (by simp)]
  · simp only [clause_count, build_connection_parts, List.countP_append, hbP,
      countP_encryption_eq_zero c "PWD=" (by decide) (by decide)
        (sw_append_false "Encrypt=" "PWD=" (by decide) (by decide))
        (sw_append_false "TrustServerCertificate=" "PWD=" (by decide) (by decide)),
      countP_mars_eq_zero c "PWD="
        (sw_append_false "MARS_Connection=" "PWD=" (by decide) (by decide)),
      countP_timeout_eq_zero "PWD=" (by decide) (by decide),
      countP_port_eq_zero c "PWD="
        (sw_append_false "Port=" "PWD=" (by decide) (by decide)),
      hextra "PWD=" (by simp)]
  · simp only [clause_count, build_connection_parts, List.countP_append, hbPort,
      countP_encryption_eq_zero c "Port=" (by decide) (by decide)
        (sw_append_false "Encrypt=" "Port=" (by decide) (by decide))
        (sw_append_false "TrustServerCertificate=" "Port=" (by decide) (by decide)),
      countP_mars_eq_zero c "Port="
        (sw_append_false "MARS_Connection=" "Port=" (by decide) (by decide)),
      countP_timeout_eq_zero "Port=" (by decide) (by decide),
      countP_port_self c,
      hextra "Port=" (by simp)]
    by_cases hp : c.port = 1433 <;> simp [hp]

/-- C6 witness: a config with a harmless extra pair and a non-default port
has exactly one of each reserved clause and one `Port=` clause. -/
theorem clause_counts_unique_witness :
    clause_count (build_connection_parts []
      { host := "h", database := "d", user := "u", password := "p", port := 1500,
        extra := some [("ApplicationIntent", "ReadOnly")] }) "DRIVER=" = 1 ∧
    clause_count (build_connection_parts []
      { host := "h", database := "d", user := "u", password := "p", port := 1500,
        extra := some [("ApplicationIntent", "ReadOnly")] }) "SERVER=" = 1 ∧
    clause_count (build_connection_parts []
      { host := "h", database := "d", user := "u", password := "p", port := 1500,
        extra := some [("ApplicationIntent", "ReadOnly")] }) "DATABASE=" = 1 ∧
    clause_count (build_connection_parts []
      { host := "h", database := "d", user := "u", password := "p", port := 1500,
        extra := some [("ApplicationIntent", "ReadOnly")] }) "UID=" = 1 ∧
    clause_count (build_connection_parts []
      { host := "h", database := "d", user := "u", password := "p", port := 1500,
        extra := some [("ApplicationIntent", "ReadOnly")] }) "PWD=" = 1 ∧
    clause_count (build_connection_parts []
      { host := "h", database := "d", user := "u", password := "p", port := 1500,
        extra := some [("ApplicationIntent", "ReadOnly")] }) "Port=" = 1 :=
  clause_counts_unique []
    { host := "h", database := "d", user := "u", password := "p", port := 1500,
      extra := some [("ApplicationIntent", "ReadOnly")] } (by decide)

/-! ### C5 -/

/-- `mkConfig` succeeds with the given record when nothing is rejected. -/
theorem mkConfig_ok_of_not_rejects (host database user password : String) (port : Int)
    (driver encrypt trust mars : String) (extra : Option (List (String × String)))
    (hn : ¬ specRejectsConstruction host database user password port encrypt trust mars) :
    mkConfig host database user password port driver encrypt trust mars extra
      = .ok ⟨host, database, user, password, port, driver, encrypt, trust, mars, extra⟩ := by
  have hiff := postInitError_none_iff
    ⟨host, database, user, password, port, driver, encrypt, trust, mars, extra⟩
  have hmk : mkConfig host database user password port driver encrypt trust mars extra
      = match postInitError
          ⟨host, database, user, password, port, driver, encrypt, trust, mars, extra⟩ with
        | some msg => Except.error msg
        | none => Except.ok
            ⟨host, database, user, password, port, driver, encrypt, trust, mars, extra⟩ := rfl
  rw [hmk, hiff.mpr hn]

/-- C5: with all four required variables set non-empty and the optional
variables absent, `from_environment` returns exactly those values with the
documented defaults (port 1433, default driver, encrypt "no", trust "yes");
with any required variable missing it raises one combined error whose
message lists exactly the missing variables, each occurring as a substring. -/
theorem from_environment_spec (env : Env) :
    (envTruthy (getenv env "SQLSERVER_HOST") = true →
      envTruthy (getenv env "SQLSERVER_DATABASE") = true →
      envTruthy (getenv env "SQLSERVER_USER") = true →
      envTruthy (getenv env "SQLSERVER_PASSWORD") = true →
      getenv env "SQLSERVER_PORT" = none →
      getenv env "SQLSERVER_DRIVER" = none →
      getenv env "SQLSERVER_ENCRYPT" = none →
      getenv env "SQLSERVER_TRUST_CERT" = none →
      from_environment env = .ok
        { host := (getenv env "SQLSERVER_HOST").getD "",
          database := (getenv env "SQLSERVER_DATABASE").getD "",
          user := (getenv env "SQLSERVER_USER").getD "",
          password := (getenv env "SQLSERVER_PASSWORD").getD "" }) ∧
    ((∃ v ∈ requiredEnvVars, envTruthy (getenv env v) = false) →
      from_environment env = .error
        ("Missing required environment variables: " ++ joinWith ", " (missing_vars env)) ∧
      (∀ v ∈ requiredEnvVars, (envTruthy (getenv env v) = false ↔ v ∈ missing_vars env)) ∧
      (∀ v ∈ missing_vars env,
        strHasSub ("Missing required environment variables: "
          ++ joinWith ", " (missing_vars env)) v)) := by
  have hchar : ∀ v ∈ requiredEnvVars,
      (envTruthy (getenv env v) = false ↔ v ∈ missing_vars env) := by
    intro v hv
    simp only [requiredEnvVars, List.mem_cons, List.not_mem_nil, or_false] at hv
    cases hH : envTruthy (getenv env "SQLSERVER_HOST") <;>
      cases hD : envTruthy (getenv env "SQLSERVER_DATABASE") <;>
        cases hU : envTruthy (getenv env "SQLSERVER_USER") <;>
          cases hPw : envTruthy (getenv env "SQLSERVER_PASSWORD") <;>
            rcases hv with rfl | rfl | rfl | rfl <;>
              (simp only [missing_vars, hH, hD, hU, hPw]; decide)
  constructor
  · intro hH hD hU hPw hPort hDrv hEnc hTrust
    have hH2 : (getenv env "SQLSERVER_HOST").getD "" ≠ "" := by
      rcases hgets : getenv env "SQLSERVER_HOST" with _ | s
      · rw [hgets] at hH; simp [envTruthy] at hH
      · rw [hgets] at hH
        simpa [envTruthy] using hH
    have hD2 : (getenv env "SQLSERVER_DATABASE").getD "" ≠ "" := by
      rcases hgets : getenv env "SQLSERVER_DATABASE" with _ | s
      · rw [hgets] at hD; simp [envTruthy] at hD
      · rw [hgets] at hD
        simpa [envTruthy] using hD
    have hU2 : (getenv env "SQLSERVER_USER").getD "" ≠ "" := by
      rcases hgets : getenv env "SQLSERVER_USER" with _ | s
      · rw [hgets] at hU; simp [envTruthy] at hU
      · rw [hgets] at hU
        simpa [envTruthy] using hU
    have hPw2 : (getenv env "SQLSERVER_PASSWORD").getD "" ≠ "" := by
      rcases hgets : getenv env "SQLSERVER_PASSWORD" with _ | s
      · rw [hgets] at hPw; simp [envTruthy] at hPw
      · rw [hgets] at hPw
        simpa [envTruthy] using hPw
    have hmiss : missing_vars env = [] := by
      simp [missing_vars, hH, hD, hU, hPw]
    unfold from_environment
    rw [if_neg (by simp [hmiss])]
    rw [hPort, hDrv, hEnc, hTrust]
    show (match pyInt (Option.getD none "1433") with
      | none => Except.error "invalid literal for int() with base 10"
      | some port =>
          mkConfig ((getenv env "SQLSERVER_HOST").getD "")
            ((getenv env "SQLSERVER_DATABASE").getD "")
            ((getenv env "SQLSERVER_USER").getD "")
            ((getenv env "SQLSERVER_PASSWORD").getD "")
            port (Option.getD none "ODBC Driver 18 for SQL Server")
            (Option.getD none "no") (Option.getD none "yes") "no" none) = _
    show mkConfig ((getenv env "SQLSERVER_HOST").getD "")
      ((getenv env "SQLSERVER_DATABASE").getD "")
      ((getenv env "SQLSERVER_USER").getD "")
      ((getenv env "SQLSERVER_PASSWORD").getD "")
      1433 "ODBC Driver 18 for SQL Server" "no" "yes" "no" none = _
    apply mkConfig_ok_of_not_rejects
    intro hcon
    rcases hcon with h | h | h | h | h | h | h | h
    · exact hH2 h
    · exact hD2 h
    · exact hU2 h
    · exact hPw2 h
    · exact h (by decide)
    · exact h (Or.inr rfl)
    · exact h (Or.inl rfl)
    · exact h (Or.inr rfl)
  · intro hex
    have hne : missing_vars env ≠ [] := by
      rcases hex with ⟨v, hv, hfv⟩
      have hvm := (hchar v hv).mp hfv
      intro hnil
      rw [hnil] at hvm
      exact (List.not_mem_nil v) hvm
    refine ⟨?_, hchar, ?_⟩
    · unfold from_environment
      rw [if_pos hne]
    · intro v hv
      unfold strHasSub
      rw [String.data_append]
      exact (data_infix_joinWith ", " (missing_vars env) v hv).trans
        ( List.suffix_append _ _).isInfix

/-- C5 witness: a complete minimal environment yields the config with
defaults; an environment with only the user set raises the combined error
naming the three missing variables. -/
theorem from_environment_spec_witness :
    from_environment
        [("SQLSERVER_HOST", "h"), ("SQLSERVER_DATABASE", "d"),
         ("SQLSERVER_USER", "u"), ("SQLSERVER_PASSWORD", "p")]
      = .ok { host := "h", database := "d", user := "u", password := "p" } ∧
    from_environment [("SQLSERVER_USER", "u")]
      = .error
        "Missing required environment variables: SQLSERVER_HOST, SQLSERVER_DATABASE, SQLSERVER_PASSWORD" := by
  constructor
  · exact (from_environment_spec
      [("SQLSERVER_HOST", "h"), ("SQLSERVER_DATABASE", "d"),
       ("SQLSERVER_USER", "u"), ("SQLSERVER_PASSWORD", "p")]).1
      (by decide) (by decide) (by decide) (by decide) rfl rfl rfl rfl
  · exact ((from_environment_spec [("SQLSERVER_USER", "u")]).2
      ⟨"SQLSERVER_HOST", by decide, by decide⟩).1

/-! ### C3 -/

/-- C3: `close()` on a never-opened manager changes nothing and cannot
raise (it is total); and whenever a patch file is tracked, present on disk,
and pointed at by `OPENSSL_CONF`, any `close()` — whether or not closing
the handle itself failed — leaves the file deleted, the override unset,
and both the handle reference and the tracking attribute cleared. -/
theorem close_never_opened_noop_and_cleanup :
    (∀ (w : World) (b : Bool), close ⟨none, none⟩ w b = (⟨none, none⟩, w)) ∧
    (∀ (st : ManagerState) (w : World) (p : String) (b : Bool),
      st.opensslPatchFile = some p → p ∈ w.fs → w.fs.Nodup → w.opensslConf = some p →
      (close st w b).1.connection = none ∧
      (close st w b).1.opensslPatchFile = none ∧
      p ∉ (close st w b).2.fs ∧
      (close st w b).2.opensslConf = none) := by
  constructor
  · intro w b; rfl
  · intro st w p b hpatch hmem hnodup hconf
    rcases st with ⟨conn, pf⟩
    simp only at hpatch
    subst hpatch
    have herase : p ∉ w.fs.erase p := by
      intro hin
      exact ((List.Nodup.mem_erase_iff hnodup).mp hin).1 rfl
    cases conn <;>
      simp [close, cleanup_openssl_patch, hmem, hconf, herase]

/-- C3 witness: both conjuncts at concrete states (a fresh manager, and a
manager holding handle 5 with a tracked patch file, closing with a failing
handle close). -/
theorem close_never_opened_noop_and_cleanup_witness :
    close ⟨none, none⟩ ⟨[], none⟩ true = (⟨none, none⟩, ⟨[], none⟩) ∧
    ((close ⟨some 5, some "/tmp/openssl.cnf"⟩
        ⟨["/tmp/openssl.cnf"], some "/tmp/openssl.cnf"⟩ true).1.connection = none ∧
      (close ⟨some 5, some "/tmp/openssl.cnf"⟩
        ⟨["/tmp/openssl.cnf"], some "/tmp/openssl.cnf"⟩ true).1.opensslPatchFile = none ∧
      "/tmp/openssl.cnf" ∉ (close ⟨some 5, some "/tmp/openssl.cnf"⟩
        ⟨["/tmp/openssl.cnf"], some "/tmp/openssl.cnf"⟩ true).2.fs ∧
      (close ⟨some 5, some "/tmp/openssl.cnf"⟩
        ⟨["/tmp/openssl.cnf"], some "/tmp/openssl.cnf"⟩ true).2.opensslConf = none) :=
  ⟨close_never_opened_noop_and_cleanup.1 ⟨[], none⟩ true,
   close_never_opened_noop_and_cleanup.2 ⟨some 5, some "/tmp/openssl.cnf"⟩
     ⟨["/tmp/openssl.cnf"], some "/tmp/openssl.cnf"⟩ "/tmp/openssl.cnf" true
     rfl (by decide) (by decide) rfl⟩

/-! ### C1 -/

/-- C1 (code behaviour at the claimed scenario): when the manager is
already open, the whole body of `connect()` is skipped, so no connection
attempt is made, nothing is re-validated, the state is untouched — but the
function falls off the end and returns `None` (`.ok none`), not the cached
handle, because the source has no `return self._connection` after the
`if self._connection is None:` block. -/
theorem connect_when_open_returns_none (darwin autoPatch : Bool) (tempDir : String)
    (pid : Nat) (allDrivers : List String) (cfg : SQLServerConfig)
    (oracle : String → Nat → Except String Nat)
    (st : ManagerState) (w : World) (h : Nat) (hopen : st.connection = some h) :
    connect darwin autoPatch tempDir pid allDrivers cfg oracle st w
      = ⟨.ok none, st, w, 0⟩ := by
  unfold connect
  rw [hopen]

/-- C1 witness: a manager already holding handle 7 returns `None` from
`connect()`, with zero attempts and unchanged state. -/
theorem connect_when_open_returns_none_witness :
    connect false true "/tmp" 1 []
      { host := "h", database := "d", user := "u", password := "p" }
      (fun _ _ => .error "e") ⟨some 7, none⟩ ⟨[], none⟩
      = ⟨.ok none, ⟨some 7, none⟩, ⟨[], none⟩, 0⟩ :=
  connect_when_open_returns_none false true "/tmp" 1 []
    { host := "h", database := "d", user := "u", password := "p" }
    (fun _ _ => .error "e") ⟨some 7, none⟩ ⟨[], none⟩ 7 rfl
